import Mathlib

/-!
Verification of the calorie-resolution core of the `calories` repository.

The TypeScript sources are shallowly embedded here:
* `src/server/usdaClient.ts` — unit conversion, energy extraction,
  search deduplication, cached detail fetches;
* `src/server/usdaCache.ts`  — the sqlite-backed detail cache
  (`INSERT OR REPLACE` keyed by `fdc_id`);
* `src/cli/cli.ts`           — the bounded convergence loop.

JavaScript numbers are modelled as rationals (`ℚ`); the JSON
serialisation round-trip of the cache is abstracted to the identity on
the stored record.
-/

namespace Calories

/-- One entry of `food.foodNutrients` as read by `extractEnergyKcal`
(`src/server/usdaClient.ts` lines 213–238).  The code merges
`nutrient?.nutrientId ?? nutrient?.nutrient?.id ?? null` into a single
optional id; `value ?? amount ?? 0` is modelled as the rational `value`. -/
structure FoodNutrient where
  nutrientId : Option Int
  nutrientName : String
  unitName : String
  value : ℚ
deriving Repr, DecidableEq

/-- One entry of `food.foodPortions` as read by `gramsFromFoodPortions`
(lines 262–288): `measureUnit.name ?? ""`, `modifier ?? ""`, and the
optional `gramWeight` (absent or `0` is falsy in the JS truthiness test). -/
structure FoodPortion where
  measureUnitName : String
  modifier : String
  gramWeight : Option ℚ
deriving Repr, DecidableEq

/-- The parts of a USDA food-detail record that the calorie pipeline reads. -/
structure FoodDetail where
  description : String
  foodNutrients : List FoodNutrient
  foodPortions : List FoodPortion
deriving Repr, DecidableEq

/-- JavaScript `String.prototype.trim`: drop whitespace from both ends. -/
def jsTrim (s : String) : String :=
  let l := s.data.dropWhile Char.isWhitespace
  ⟨(l.reverse.dropWhile Char.isWhitespace).reverse⟩

/-- JavaScript `String.prototype.toLowerCase` (ASCII range). -/
def jsToLower (s : String) : String :=
  ⟨s.data.map Char.toLower⟩

/-- `replace(/s$/, "")`: remove one trailing `'s'` if present. -/
def stripTrailingS (s : String) : String :=
  if s.data.getLast? = some 's' then ⟨s.data.dropLast⟩ else s

/-- JavaScript `String.prototype.startsWith`. -/
def strStartsWith (s pre : String) : Bool :=
  pre.data.isPrefixOf s.data

/-- `extractEnergyKcal`'s scan body: one pass over the nutrient list.
For each nutrient, first the canonical id test (`nutrientId === 1008`),
then the kcal/"Energy" test (`unitName.toLowerCase() === "kcal"` and the
name is `"Energy"` or starts with `"Energy"`); the first nutrient passing
either test supplies the value, else the scan continues. -/
def extractEnergyScan : List FoodNutrient → ℚ
  | [] => 0
  | n :: rest =>
    if n.nutrientId = some 1008 then n.value
    else if jsToLower n.unitName = "kcal" ∧
        (n.nutrientName = "Energy" ∨ strStartsWith n.nutrientName "Energy") then
      n.value
    else extractEnergyScan rest

/-- `extractEnergyKcal(food)` (`usdaClient.ts` lines 213–238): kcal per
100 g, defaulting to `0` when no nutrient matches. -/
def extractEnergyKcal (food : FoodDetail) : ℚ :=
  extractEnergyScan food.foodNutrients

/-- `normalizeUnit(unit)` (line 240): trim, lowercase, strip one trailing
`"s"` (the regex `/s$/` removes at most one final `s`). -/
def normalizeUnit (unit : String) : String :=
  stripTrailingS (jsToLower (jsTrim unit))

/-- The fixed weight table `conversions` of `unitToGrams` (lines 246–255). -/
def weightConversions (s : String) : Option ℚ :=
  if s = "g" then some 1
  else if s = "gram" then some 1
  else if s = "kg" then some 1000
  else if s = "kilogram" then some 1000
  else if s = "oz" then some 28.3495
  else if s = "ounce" then some 28.3495
  else if s = "lb" then some 453.592
  else if s = "pound" then some 453.592
  else none

/-- `unitToGrams(quantity, unit)` (lines 244–260): weight-table tier,
returning `[0, "unknown"]` when the normalized unit has no entry. -/
def unitToGrams (quantity : ℚ) (unit : String) : ℚ × String :=
  match weightConversions (normalizeUnit unit) with
  | some factor => (quantity * factor, "weight")
  | none => (0, "unknown")

/-- The portion-scanning loop of `gramsFromFoodPortions` (lines 272–285):
a portion whose normalized measure-unit name or normalized modifier equals
the normalized input unit and whose `gramWeight` is truthy (present and
non-zero) yields `quantity * gramWeight`. -/
def portionScan (quantity : ℚ) (normalized : String) :
    List FoodPortion → ℚ × String
  | [] => (0, "unknown")
  | p :: rest =>
    if normalizeUnit p.measureUnitName = normalized ∨
        normalizeUnit p.modifier = normalized then
      match p.gramWeight with
      | some w => if w ≠ 0 then (quantity * w, "portion")
                  else portionScan quantity normalized rest
      | none => portionScan quantity normalized rest
    else portionScan quantity normalized rest

/-- `gramsFromFoodPortions(quantity, unit, food)` (lines 262–288).  Note
the order in the source: the empty-normalized-unit test returns
`[quantity, "assumed_grams"]` BEFORE the portion list is consulted. -/
def gramsFromFoodPortions (quantity : ℚ) (unit : String)
    (food : FoodDetail) : ℚ × String :=
  let normalized := normalizeUnit unit
  if normalized = "" then (quantity, "assumed_grams")
  else portionScan quantity normalized food.foodPortions

/-- The gram-resolution cascade of `getCaloriesByFdcId` (lines 74–81):
weight table first; if the result is `<= 0`, the portion/empty-unit
function; if still `<= 0`, `quantity * 100` with source `fallback_100g`. -/
def resolveGrams (quantity : ℚ) (unit : String) (food : FoodDetail) :
    ℚ × String :=
  let r1 := unitToGrams quantity unit
  let r2 := if r1.1 ≤ 0 then gramsFromFoodPortions quantity unit food else r1
  if r2.1 ≤ 0 then (quantity * 100, "fallback_100g") else r2

/-- The result record of `getCaloriesByFdcId` (lines 83–93), with the
`meta` fields the spec names. -/
structure CalorieResult where
  calories : ℚ
  kcalPer100g : ℚ
  grams : ℚ
  gramSource : String
deriving Repr, DecidableEq

/-- `getCaloriesByFdcId` after the detail fetch (lines 71–93): energy
extraction, gram resolution, `calories = kcalPer100g / 100 * grams`. -/
def caloriesFromDetail (quantity : ℚ) (unit : String)
    (food : FoodDetail) : CalorieResult :=
  let kcal := extractEnergyKcal food
  let g := resolveGrams quantity unit food
  { calories := kcal / 100 * g.1
    kcalPer100g := kcal
    grams := g.1
    gramSource := g.2 }

/-- The fields of a `FoodSearchResult` (`usdaClient.ts` lines 17–26) that
the deduplication logic touches: the id it keys on and the payload it
copies through. -/
structure FoodSearchResult where
  fdcId : Int
  description : String
deriving Repr, DecidableEq

/-- The dedup pass of `multiSearchFoods` (lines 155–168): a fold over the
flattened per-query hit lists, with the `seenFdcIds` set modelled as the
list of ids pushed so far and results appended in encounter order. -/
def dedupStep (acc : List Int × List FoodSearchResult)
    (food : FoodSearchResult) : List Int × List FoodSearchResult :=
  if food.fdcId ∈ acc.1 then acc
  else (food.fdcId :: acc.1, acc.2 ++ [food])

/-- `multiSearchFoods` after the per-query searches resolve (lines
153–168), applied to `resultsArray`, the list of per-query hit lists in
submission order. -/
def multiSearchFoods (resultsArray : List (List FoodSearchResult)) :
    List FoodSearchResult :=
  (resultsArray.flatten.foldl dedupStep ([], [])).2

/-- Modelled from the spec: "deduplicates by id, preserving first-seen
order" — keep each hit whose id has not occurred earlier in the list. -/
def firstOccFilter (seen : List Int) :
    List FoodSearchResult → List FoodSearchResult
  | [] => []
  | f :: rest =>
    if f.fdcId ∈ seen then firstOccFilter seen rest
    else f :: firstOccFilter (f.fdcId :: seen) rest

/-- The `usda_cache` table (`usdaCache.ts`): rows `(fdc_id, response_data)`
keyed by the integer primary key, with the JSON round-trip abstracted to
storing the record itself. -/
abbrev CacheTable := List (Int × FoodDetail)

/-- `getCached(fdcId)` (`usdaCache.ts` lines 17–22): point lookup by
primary key, `null` (here `none`) when no row matches. -/
def getCached (tbl : CacheTable) (fdcId : Int) : Option FoodDetail :=
  (tbl.find? (fun r => r.1 = fdcId)).map (fun r => r.2)

/-- `setCached(fdcId, data)` (`usdaCache.ts` lines 24–28):
`INSERT OR REPLACE` — any existing row with the same primary key is
replaced by the new row. -/
def setCached (tbl : CacheTable) (fdcId : Int) (data : FoodDetail) :
    CacheTable :=
  tbl.filter (fun r => r.1 ≠ fdcId) ++ [(fdcId, data)]

/-- `getFoodDetails(fdcId)` (`usdaClient.ts` lines 180–211) with the
network fetch abstracted as the oracle `fetch`: cache hit returns the
cached record; miss fetches, stores via `setCached`, and returns the
fetched record.  The boolean records whether a network fetch happened. -/
def getFoodDetails (fetch : Int → FoodDetail) (tbl : CacheTable)
    (fdcId : Int) : FoodDetail × CacheTable × Bool :=
  match getCached tbl fdcId with
  | some cached => (cached, tbl, false)
  | none =>
    let data := fetch fdcId
    (data, setCached tbl fdcId data, true)

/-! ### The convergence loop of `src/cli/cli.ts` -/

/-- A raw ingredient object of the extracted/adjusted recipe JSON
(`cli.ts` lines 14–18): every field optional. -/
structure RawIngredient where
  quantity : Option ℚ
  unit : Option String
  name : Option String
deriving Repr, DecidableEq

/-- `RecipeJson` (`cli.ts` lines 12–19). -/
structure RecipeJson where
  title : Option String
  ingredients : Option (List RawIngredient)
deriving Repr, DecidableEq

/-- A normalized `Ingredient` (`cli.ts` lines 6–10). -/
structure Ingredient where
  quantity : ℚ
  unit : String
  name : String
deriving Repr, DecidableEq

/-- `MAX_ITERATIONS` (`cli.ts` line 24). -/
def MAX_ITERATIONS : Nat := 8

/-- `CALORIE_TOLERANCE_RATIO` (`cli.ts` line 25). -/
def CALORIE_TOLERANCE : ℚ := 0.05

/-- `normalizeRecipe` (`cli.ts` lines 91–103): default the missing
fields, trim, and drop a line whose name is empty or whose quantity is
not positive (`Number.isFinite` always holds over `ℚ`). -/
def normalizeRecipe (recipeJson : RecipeJson) : List Ingredient :=
  (recipeJson.ingredients.getD []).foldr
    (fun item acc =>
      let quantity := item.quantity.getD 0
      let unit := jsTrim (item.unit.getD "")
      let name := jsTrim (item.name.getD "")
      if name = "" ∨ quantity ≤ 0 then acc
      else { quantity := quantity, unit := unit, name := name } :: acc) []

/-- `withinTolerance` (`cli.ts` lines 148–149). -/
def withinTolerance (total target : ℚ) : Prop :=
  |total - target| ≤ target * CALORIE_TOLERANCE

instance (total target : ℚ) : Decidable (withinTolerance total target) := by
  unfold withinTolerance; infer_instance

/-- The payload returned by the external adjustment capability
(`requestRecipeAdjustment`, `cli.ts` lines 128–146), as consumed at lines
194–201: optional title and ingredient list, and the `changes` array
(`none` models a missing or non-array `changes` field). -/
structure AdjustOut where
  title : Option String
  ingredients : Option (List RawIngredient)
  changes : Option (List String)
deriving Repr, DecidableEq

/-- The recipe rebuild after an adjustment (`cli.ts` lines 194–197):
`title = adjusted?.title ?? recipeJson.title ?? "Untitled"`,
`ingredients = adjusted?.ingredients ?? recipeJson.ingredients`. -/
def applyAdjustment (recipeJson : RecipeJson) (adjusted : AdjustOut) :
    RecipeJson :=
  { title := some ((adjusted.title).getD ((recipeJson.title).getD "Untitled"))
    ingredients := (adjusted.ingredients).orElse (fun _ => recipeJson.ingredients) }

/-- The three ways `runOptimizer` leaves its loop: the plain result
object (no warning), the exhausted result object (`warning` set,
`cli.ts` lines 204–209), and the `"No usable ingredients"` throw
(line 166). -/
inductive OptOutcome where
  | ok (recipe : RecipeJson) (total : ℚ) (changes : List String)
  | warn (recipe : RecipeJson) (total : ℚ) (changes : List String)
  | noUsableIngredients
deriving Repr, DecidableEq

/-- An outcome instrumented with how many total-calorie evaluations
(`calculateTotalCalories` calls, each of which resolves every ingredient
over the network) and how many adjustment-capability calls
(`requestRecipeAdjustment`) the run performed. -/
structure RunTrace where
  outcome : OptOutcome
  evalCalls : Nat
  adjustCalls : Nat
deriving Repr, DecidableEq

/-- Whether the outcome carries the `warning` field. -/
def OptOutcome.isWarn : OptOutcome → Bool
  | .warn _ _ _ => true
  | _ => false

/-- The `for` loop of `runOptimizer` (`cli.ts` lines 163–209), with the
two external oracles indexed by the iteration counter `i`: `ev i`
abstracts `calculateTotalCalories` and `adj i` abstracts
`requestRecipeAdjustment`.  `remaining = MAX_ITERATIONS - i`; falling off
the loop returns the warning object with the last computed total. -/
def optimizeLoop (ev : Nat → List Ingredient → ℚ)
    (adj : Nat → RecipeJson → ℚ → List String → AdjustOut) (target : ℚ) :
    Nat → Nat → Nat → Nat → RecipeJson → List String → ℚ → RunTrace
  | 0, _, e, a, recipeJson, changesLog, total =>
    ⟨.warn recipeJson total changesLog, e, a⟩
  | remaining + 1, i, e, a, recipeJson, changesLog, _ =>
    let ingredients := normalizeRecipe recipeJson
    if ingredients.isEmpty then ⟨.noUsableIngredients, e, a⟩
    else
      let total := ev i ingredients
      if withinTolerance total target then
        ⟨.ok recipeJson total changesLog, e + 1, a⟩
      else if total < target then
        ⟨.ok recipeJson total changesLog, e + 1, a⟩
      else
        let delta := total - target
        let adjusted := adj i recipeJson delta changesLog
        let recipeJson' := applyAdjustment recipeJson adjusted
        let changesLog' := changesLog ++ (adjusted.changes).getD []
        optimizeLoop ev adj target remaining (i + 1) (e + 1) (a + 1)
          recipeJson' changesLog' total

/-- `runOptimizer(recipeText, targetCalories)` (`cli.ts` lines 151–210)
from the extracted recipe JSON onward: loop over `MAX_ITERATIONS`
iterations starting from an empty change log and `total = 0`. -/
def runOptimizer (ev : Nat → List Ingredient → ℚ)
    (adj : Nat → RecipeJson → ℚ → List String → AdjustOut) (target : ℚ)
    (recipeJson : RecipeJson) : RunTrace :=
  optimizeLoop ev adj target MAX_ITERATIONS 0 0 0 recipeJson [] 0

/-! ### Helper lemmas -/

/-- `unitToGrams` yields exactly the weight-table result or `(0, "unknown")`. -/
lemma unitToGrams_cases (q : ℚ) (u : String) :
    (∃ f, weightConversions (normalizeUnit u) = some f ∧
      unitToGrams q u = (q * f, "weight")) ∨
    unitToGrams q u = (0, "unknown") := by
  unfold unitToGrams
  cases h : weightConversions (normalizeUnit u) with
  | none => right; rfl
  | some f => left; exact ⟨f, rfl, rfl⟩

/-- The portion scan either succeeds with source `"portion"` or returns
`(0, "unknown")`. -/
lemma portionScan_cases (q : ℚ) (n : String) (l : List FoodPortion) :
    (portionScan q n l).2 = "portion" ∨ portionScan q n l = (0, "unknown") := by
  induction l with
  | nil => right; rfl
  | cons p rest ih =>
    rw [portionScan]
    split
    · cases p.gramWeight with
      | none => exact ih
      | some w =>
        by_cases hw : w ≠ 0
        · left; simp [hw]
        · simpa [hw] using ih
    · exact ih

/-- `gramsFromFoodPortions` yields `"assumed_grams"`, `"portion"`, or
`(0, "unknown")`. -/
lemma gramsFromFoodPortions_cases (q : ℚ) (u : String) (food : FoodDetail) :
    (gramsFromFoodPortions q u food).2 = "assumed_grams" ∨
    (gramsFromFoodPortions q u food).2 = "portion" ∨
    gramsFromFoodPortions q u food = (0, "unknown") := by
  unfold gramsFromFoodPortions
  dsimp only
  by_cases h : normalizeUnit u = ""
  · rw [if_pos h]; left; rfl
  · rw [if_neg h]
    rcases portionScan_cases q (normalizeUnit u) food.foodPortions with hp | hp
    · right; left; exact hp
    · right; right; exact hp

/-- The final gram source of the cascade is never `"unknown"`. -/
lemma resolveGrams_source (q : ℚ) (u : String) (food : FoodDetail) :
    (resolveGrams q u food).2 = "weight" ∨
    (resolveGrams q u food).2 = "portion" ∨
    (resolveGrams q u food).2 = "assumed_grams" ∨
    (resolveGrams q u food).2 = "fallback_100g" := by
  unfold resolveGrams
  dsimp only
  by_cases h1 : (unitToGrams q u).1 ≤ 0
  · rw [if_pos h1]
    by_cases h2 : (gramsFromFoodPortions q u food).1 ≤ 0
    · rw [if_pos h2]; right; right; right; rfl
    · rw [if_neg h2]
      rcases gramsFromFoodPortions_cases q u food with h | h | h
      · right; right; left; exact h
      · right; left; exact h
      · rw [h] at h2; simp at h2
  · rw [if_neg h1, if_neg h1]
    rcases unitToGrams_cases q u with ⟨f, _, h⟩ | h
    · left; rw [h]
    · rw [h] at h1; simp at h1

/-! ### Claim theorems -/

/-- The weight-table tier in isolation: a normalized unit with a table
entry `factor` makes `unitToGrams` return `quantity * factor` with
source `"weight"`, for every quantity. -/
lemma unitToGrams_weight (quantity : ℚ) (unit : String) (factor : ℚ)
    (h : weightConversions (normalizeUnit unit) = some factor) :
    unitToGrams quantity unit = (quantity * factor, "weight") := by
  unfold unitToGrams
  rw [h]

/-- Every factor in the weight table is positive. -/
lemma weightConversions_pos (s : String) (f : ℚ)
    (h : weightConversions s = some f) : 0 < f := by
  unfold weightConversions at h
  split_ifs at h <;>
    first
      | exact absurd h.symm (Option.some_ne_none f)
      | (rw [Option.some_inj] at h; rw [← h]; norm_num)

/-- C10: the gram-source tag of every `CalorieResult` produced by the
id-addressed resolution is `"weight"`, `"portion"`, `"assumed_grams"`, or
`"fallback_100g"`; the tag `"unknown"` never appears in a returned
result, because every tier that fails to resolve a positive mass is
overridden, ending in `fallback_100g`. -/
theorem caloriesFromDetail_gramSource_known (quantity : ℚ) (unit : String)
    (food : FoodDetail) :
    ((caloriesFromDetail quantity unit food).gramSource = "weight" ∨
     (caloriesFromDetail quantity unit food).gramSource = "portion" ∨
     (caloriesFromDetail quantity unit food).gramSource = "assumed_grams" ∨
     (caloriesFromDetail quantity unit food).gramSource = "fallback_100g") ∧
    (caloriesFromDetail quantity unit food).gramSource ≠ "unknown" := by
  have hsrc : (caloriesFromDetail quantity unit food).gramSource =
      (resolveGrams quantity unit food).2 := rfl
  rw [hsrc]
  refine ⟨resolveGrams_source quantity unit food, ?_⟩
  rcases resolveGrams_source quantity unit food with h | h | h | h <;>
    rw [h] <;> decide

/-- The per-nutrient energy test of `extractEnergyKcal`: canonical id
1008, or unit `"kcal"` (lowercased) with a name that is or starts with
`"Energy"`. -/
def isEnergyNutrient (n : FoodNutrient) : Bool :=
  decide (n.nutrientId = some 1008 ∨
    (jsToLower n.unitName = "kcal" ∧
      (n.nutrientName = "Energy" ∨ strStartsWith n.nutrientName "Energy" = true)))

/-- A kcal/"Energy" nutrient carrying no numeric id, value 10. -/
def kcalNutrientCEx : FoodNutrient :=
  { nutrientId := none, nutrientName := "Energy", unitName := "kcal",
    value := 10 }

/-- The canonical id-1008 energy nutrient, value 52. -/
def canonicalNutrientCEx : FoodNutrient :=
  { nutrientId := some 1008, nutrientName := "Energy", unitName := "KCAL",
    value := 52 }

/-- A detail record whose nutrient list has a kcal/"Energy" nutrient
(value 10, no id) BEFORE the canonical id-1008 nutrient (value 52). -/
def energyFoodCEx : FoodDetail :=
  { description := "cex energy"
    foodNutrients := [kcalNutrientCEx, canonicalNutrientCEx]
    foodPortions := [] }

/-- Counterexample to C1: `energyFoodCEx` contains an id-1008 nutrient
with value 52, yet `extractEnergyKcal` returns 10 — the kcal/"Energy"
nutrient that appears earlier in the list wins over the id-1008 one. -/
theorem extractEnergyKcal_earlier_kcal_wins_cex :
    (∃ n ∈ energyFoodCEx.foodNutrients, n.nutrientId = some 1008 ∧
      n.value = 52) ∧
    extractEnergyKcal energyFoodCEx = 10 ∧ (10 : ℚ) ≠ 52 := by
  refine ⟨⟨canonicalNutrientCEx, ?_, rfl, rfl⟩, rfl, by norm_num⟩
  simp [energyFoodCEx]

/-- C1 (amended): the scan is a single pass over the nutrient list; for
each nutrient the id-1008 test is checked before the kcal/"Energy" test,
and the FIRST nutrient in list order passing either test supplies the
energy value — an id-1008 nutrient wins only over matches later in the
list.  If no nutrient matches either test, the energy defaults to 0
without raising an error. -/
theorem extractEnergyKcal_first_match (food : FoodDetail) :
    extractEnergyKcal food =
      match food.foodNutrients.find? isEnergyNutrient with
      | some n => n.value
      | none => 0 := by
  unfold extractEnergyKcal
  induction food.foodNutrients with
  | nil => rfl
  | cons n rest ih =>
    rw [extractEnergyScan]
    by_cases h1 : n.nutrientId = some 1008
    · rw [if_pos h1, List.find?_cons_of_pos _
        (by simp only [isEnergyNutrient, decide_eq_true_eq]; tauto)]
    · rw [if_neg h1]
      by_cases h2 : jsToLower n.unitName = "kcal" ∧
          (n.nutrientName = "Energy" ∨ strStartsWith n.nutrientName "Energy" = true)
      · rw [if_pos h2, List.find?_cons_of_pos _
          (by simp only [isEnergyNutrient, decide_eq_true_eq]; tauto)]
      · rw [if_neg h2, List.find?_cons_of_neg _
          (by simp only [isEnergyNutrient, decide_eq_true_eq]; tauto)]
        exact ih

/-- A portion whose measure-unit name normalizes to the empty string and
whose gram weight is the positive value 5. -/
def emptyUnitPortionCEx : FoodPortion :=
  { measureUnitName := "", modifier := "undetermined", gramWeight := some 5 }

/-- A detail record carrying only `emptyUnitPortionCEx`. -/
def emptyUnitFoodCEx : FoodDetail :=
  { description := "cex empty unit"
    foodNutrients := []
    foodPortions := [emptyUnitPortionCEx] }

/-- Counterexample to C2: the input unit `""` normalizes to the empty
string and `emptyUnitFoodCEx` has a portion whose normalized measure-unit
name is also empty with positive gram weight 5, yet the conversion of
quantity 2 returns `(2, "assumed_grams")` — the empty-unit fallback, not
the portion result `(2 * 5, "portion")`: the code tests the empty-unit
fallback BEFORE scanning portions. -/
theorem gramsFromFoodPortions_empty_unit_cex :
    emptyUnitPortionCEx ∈ emptyUnitFoodCEx.foodPortions ∧
    normalizeUnit emptyUnitPortionCEx.measureUnitName = normalizeUnit "" ∧
    emptyUnitPortionCEx.gramWeight = some 5 ∧ (0 : ℚ) < 5 ∧
    gramsFromFoodPortions 2 "" emptyUnitFoodCEx = (2, "assumed_grams") ∧
    gramsFromFoodPortions 2 "" emptyUnitFoodCEx ≠ (2 * 5, "portion") := by
  refine ⟨by simp [emptyUnitFoodCEx], by decide, rfl, by norm_num, rfl, ?_⟩
  intro h
  have h2 : (2 : ℚ) = 2 * 5 := congrArg Prod.fst h
  norm_num at h2

/-- C2 (amended): the tiers apply strictly in the order weight table,
empty-unit fallback, portion lookup, fallback_100g.  In particular, for
every call whose normalized unit is empty and whose quantity is positive,
the result is `(quantity, "assumed_grams")` regardless of the food
detail's portions — the portion tier is reachable only for non-empty
normalized units. -/
theorem emptyUnit_assumed_grams (quantity : ℚ) (unit : String)
    (food : FoodDetail) (hu : normalizeUnit unit = "")
    (hq : 0 < quantity) :
    gramsFromFoodPortions quantity unit food = (quantity, "assumed_grams") ∧
    resolveGrams quantity unit food = (quantity, "assumed_grams") := by
  have hg : gramsFromFoodPortions quantity unit food =
      (quantity, "assumed_grams") := by
    unfold gramsFromFoodPortions
    dsimp only
    rw [if_pos hu]
  refine ⟨hg, ?_⟩
  have hw : unitToGrams quantity unit = (0, "unknown") := by
    unfold unitToGrams
    rw [hu]
    rfl
  unfold resolveGrams
  dsimp only
  rw [hw]
  norm_num [hg, not_le.mpr hq]

/-- Witness for C2 (amended): quantity 2 with unit `""` against
`emptyUnitFoodCEx` resolves to `(2, "assumed_grams")`. -/
theorem emptyUnit_assumed_grams_witness :
    gramsFromFoodPortions 2 "" emptyUnitFoodCEx = (2, "assumed_grams") ∧
    resolveGrams 2 "" emptyUnitFoodCEx = (2, "assumed_grams") :=
  emptyUnit_assumed_grams 2 "" emptyUnitFoodCEx (by decide) (by norm_num)

/-- Counterexample to C7: quantity 0 (non-negative, explicitly included
by the claim) with the weight-table unit `"g"`: the weight tier itself
yields `(0, "weight")`, but the conversion cascade discards it through
the `grams <= 0` check and the returned gram source is
`"fallback_100g"`, not `"weight"`. -/
theorem resolveGrams_zero_quantity_cex :
    weightConversions (normalizeUnit "g") = some 1 ∧
    unitToGrams 0 "g" = (0, "weight") ∧
    resolveGrams 0 "g" emptyUnitFoodCEx = (0, "fallback_100g") ∧
    ("fallback_100g" : String) ≠ "weight" := by
  have hn : normalizeUnit "g" = "g" := by decide
  have hconv : weightConversions (normalizeUnit "g") = some 1 := by
    rw [hn]; rfl
  have hu : unitToGrams 0 "g" = (0, "weight") := by
    rw [unitToGrams_weight 0 "g" 1 hconv]
    norm_num
  have hport : gramsFromFoodPortions 0 "g" emptyUnitFoodCEx =
      (0, "unknown") := rfl
  refine ⟨hconv, hu, ?_, by decide⟩
  unfold resolveGrams
  dsimp only
  rw [hu, hport]
  norm_num

/-- C7 (amended): for every POSITIVE quantity and every unit whose
normalization lies in the fixed weight table, both the weight tier and
the whole conversion cascade yield `quantity * factor` with gram source
`"weight"`.  At quantity 0 the weight tier's `(0, "weight")` is
discarded by the cascade's `grams <= 0` check, and the returned gram
source is `"fallback_100g"` with 0 grams. -/
theorem resolveGrams_weight_table (quantity : ℚ) (unit : String)
    (food : FoodDetail) (factor : ℚ)
    (h : weightConversions (normalizeUnit unit) = some factor)
    (hq : 0 < quantity) :
    unitToGrams quantity unit = (quantity * factor, "weight") ∧
    resolveGrams quantity unit food = (quantity * factor, "weight") := by
  have hu : unitToGrams quantity unit = (quantity * factor, "weight") :=
    unitToGrams_weight quantity unit factor h
  refine ⟨hu, ?_⟩
  have hpos : 0 < quantity * factor :=
    mul_pos hq (weightConversions_pos (normalizeUnit unit) factor h)
  unfold resolveGrams
  dsimp only
  rw [hu]
  rw [if_neg (not_le.mpr hpos), if_neg (not_le.mpr hpos)]

/-- Witness for C7 (amended): `(3, "oz")` resolves to `85.0485` grams
with source `"weight"` at both the tier and the cascade level. -/
theorem resolveGrams_weight_table_witness :
    weightConversions (normalizeUnit "oz") = some 28.3495 ∧ (0 : ℚ) < 3 ∧
    unitToGrams 3 "oz" = (85.0485, "weight") ∧
    resolveGrams 3 "oz" emptyUnitFoodCEx = (85.0485, "weight") := by
  have hn : normalizeUnit "oz" = "oz" := by decide
  have hconv : weightConversions (normalizeUnit "oz") = some 28.3495 := by
    rw [hn]; rfl
  obtain ⟨h1, h2⟩ :=
    resolveGrams_weight_table 3 "oz" emptyUnitFoodCEx 28.3495 hconv
      (by norm_num)
  refine ⟨hconv, by norm_num, ?_, ?_⟩
  · rw [h1]
    simp only [Prod.mk.injEq]
    norm_num
  · rw [h2]
    simp only [Prod.mk.injEq]
    norm_num

/-- The dedup fold extends its output list by exactly the first-seen
filter of the remaining input. -/
lemma foldl_dedupStep (l : List FoodSearchResult) :
    ∀ seen out, (l.foldl dedupStep (seen, out)).2 = out ++ firstOccFilter seen l := by
  induction l with
  | nil => intro seen out; simp [firstOccFilter]
  | cons f rest ih =>
    intro seen out
    rw [List.foldl_cons]
    by_cases h : f.fdcId ∈ seen
    · have hstep : dedupStep (seen, out) f = (seen, out) := by
        simp [dedupStep, h]
      rw [hstep, ih, firstOccFilter, if_pos h]
    · have hstep : dedupStep (seen, out) f = (f.fdcId :: seen, out ++ [f]) := by
        simp [dedupStep, h]
      rw [hstep, ih, firstOccFilter, if_neg h]
      simp

/-- Ids kept by the first-seen filter: none if already seen, one if the
id occurs in the remaining input, zero otherwise. -/
lemma firstOccFilter_count (idv : Int) :
    ∀ (l : List FoodSearchResult) (seen : List Int),
      ((firstOccFilter seen l).map FoodSearchResult.fdcId).count idv =
        if idv ∈ seen then 0
        else if idv ∈ l.map FoodSearchResult.fdcId then 1 else 0 := by
  intro l
  induction l with
  | nil => intro seen; simp [firstOccFilter]
  | cons f rest ih =>
    intro seen
    rw [firstOccFilter]
    by_cases h : f.fdcId ∈ seen
    · rw [if_pos h, ih seen]
      by_cases hs : idv ∈ seen
      · simp [hs]
      · have hne : idv ≠ f.fdcId := fun he => hs (he ▸ h)
        simp [hs, hne]
    · rw [if_neg h]
      simp only [List.map_cons, List.count_cons]
      rw [ih (f.fdcId :: seen)]
      by_cases he : idv = f.fdcId
      · have hs : idv ∉ seen := he ▸ h
        simp [he, hs, h]
      · have hne : f.fdcId ≠ idv := Ne.symm he
        by_cases hs : idv ∈ seen
        · simp [hs, he, hne, List.mem_cons]
        · simp [hs, he, hne, List.mem_cons]

/-- C3: `multiSearchFoods` returns the flattened per-query hit lists
(in query-submission order) deduplicated by id keeping first occurrences:
the output equals the first-seen filter of the flattened input, and every
id present in the flattened input appears exactly once in the output
(ids not present appear zero times). -/
theorem multiSearchFoods_dedup (resultsArray : List (List FoodSearchResult)) :
    multiSearchFoods resultsArray = firstOccFilter [] resultsArray.flatten ∧
    ∀ idv : Int,
      ((multiSearchFoods resultsArray).map FoodSearchResult.fdcId).count idv =
        if idv ∈ resultsArray.flatten.map FoodSearchResult.fdcId then 1
        else 0 := by
  have hmain : multiSearchFoods resultsArray =
      firstOccFilter [] resultsArray.flatten := by
    unfold multiSearchFoods
    rw [foldl_dedupStep resultsArray.flatten [] []]
    rfl
  refine ⟨hmain, fun idv => ?_⟩
  rw [hmain, firstOccFilter_count idv resultsArray.flatten []]
  simp

/-- Point lookup after an upsert for the same key finds the new row. -/
lemma getCached_setCached (tbl : CacheTable) (fdcId : Int) (v : FoodDetail) :
    getCached (setCached tbl fdcId v) fdcId = some v := by
  unfold getCached setCached
  rw [List.find?_append]
  have h1 : (tbl.filter (fun r => r.1 ≠ fdcId)).find?
      (fun r => r.1 = fdcId) = none := by
    rw [List.find?_eq_none]
    intro x hx
    have hne := (List.mem_filter.mp hx).2
    simp only [decide_eq_true_eq] at hne ⊢
    exact hne
  rw [h1]
  simp [List.find?]

/-- C8: `put` followed by `get` for the same id returns the value that
was put, and after two successive `put`s for the same id a `get` returns
exactly the second value — whole-record replacement, never a merge. -/
theorem detailCache_put_get (tbl : CacheTable) (fdcId : Int)
    (v w : FoodDetail) :
    getCached (setCached tbl fdcId v) fdcId = some v ∧
    getCached (setCached (setCached tbl fdcId v) fdcId w) fdcId = some w :=
  ⟨getCached_setCached tbl fdcId v,
   getCached_setCached (setCached tbl fdcId v) fdcId w⟩

/-- C4: the detail fetch is read-through on the cache: a cache hit
returns the cached record with no network fetch and no cache write; a
miss performs the fetch, stores the fetched record via the upsert, and
returns that record. -/
theorem getFoodDetails_read_through (fetch : Int → FoodDetail)
    (tbl : CacheTable) (fdcId : Int) :
    (∀ d, getCached tbl fdcId = some d →
      getFoodDetails fetch tbl fdcId = (d, tbl, false)) ∧
    (getCached tbl fdcId = none →
      getFoodDetails fetch tbl fdcId =
        (fetch fdcId, setCached tbl fdcId (fetch fdcId), true)) := by
  constructor
  · intro d hd
    unfold getFoodDetails
    rw [hd]
  · intro hn
    unfold getFoodDetails
    rw [hn]

/-- Witness for C4: a hit on a one-row table returns the cached record
without fetching; a miss on the empty table fetches, stores and returns. -/
theorem getFoodDetails_read_through_witness :
    getFoodDetails (fun _ => energyFoodCEx) [(1, emptyUnitFoodCEx)] 1 =
      (emptyUnitFoodCEx, [(1, emptyUnitFoodCEx)], false) ∧
    getFoodDetails (fun _ => energyFoodCEx) [] 2 =
      (energyFoodCEx, setCached [] 2 energyFoodCEx, true) :=
  ⟨(getFoodDetails_read_through (fun _ => energyFoodCEx)
      [(1, emptyUnitFoodCEx)] 1).1 emptyUnitFoodCEx rfl,
   (getFoodDetails_read_through (fun _ => energyFoodCEx) [] 2).2 rfl⟩

/-! ### Loop step lemmas and concrete runs -/

/-- One adjusting iteration: when normalization is non-empty and the
evaluated total is neither within tolerance nor below target, the loop
calls the adjuster and recurses with both counters incremented. -/
lemma optimizeLoop_adjust_step (ev : Nat → List Ingredient → ℚ)
    (adj : Nat → RecipeJson → ℚ → List String → AdjustOut) (target : ℚ)
    (r i e a : Nat) (recipe : RecipeJson) (log : List String) (tot : ℚ)
    (hne : (normalizeRecipe recipe).isEmpty = false)
    (hw : ¬ withinTolerance (ev i (normalizeRecipe recipe)) target)
    (hb : ¬ ev i (normalizeRecipe recipe) < target) :
    optimizeLoop ev adj target (r + 1) i e a recipe log tot =
      optimizeLoop ev adj target r (i + 1) (e + 1) (a + 1)
        (applyAdjustment recipe
          (adj i recipe (ev i (normalizeRecipe recipe) - target) log))
        (log ++
          ((adj i recipe (ev i (normalizeRecipe recipe) - target) log).changes).getD [])
        (ev i (normalizeRecipe recipe)) := by
  rw [optimizeLoop]
  simp only [hne, Bool.false_eq_true, if_false]
  rw [if_neg hw, if_neg hb]

/-- One aborting iteration: when normalization is empty the loop throws
the no-usable-ingredients error with the counters unchanged. -/
lemma optimizeLoop_empty_step (ev : Nat → List Ingredient → ℚ)
    (adj : Nat → RecipeJson → ℚ → List String → AdjustOut) (target : ℚ)
    (r i e a : Nat) (recipe : RecipeJson) (log : List String) (tot : ℚ)
    (hne : (normalizeRecipe recipe).isEmpty = true) :
    optimizeLoop ev adj target (r + 1) i e a recipe log tot =
      ⟨.noUsableIngredients, e, a⟩ := by
  rw [optimizeLoop]
  simp only [hne, if_true]

/-- If every evaluation is out of tolerance and not below target, and
every adjusted recipe normalizes non-empty, the loop runs its whole
remaining budget and exits with the warning outcome, having evaluated
and adjusted exactly `remaining` more times. -/
lemma optimizeLoop_exhausts (ev : Nat → List Ingredient → ℚ)
    (adj : Nat → RecipeJson → ℚ → List String → AdjustOut) (target : ℚ)
    (h1 : ∀ i ing, ¬ withinTolerance (ev i ing) target)
    (h2 : ∀ i ing, ¬ ev i ing < target)
    (h3 : ∀ i r d log,
      (normalizeRecipe (applyAdjustment r (adj i r d log))).isEmpty = false) :
    ∀ (remaining i e a : Nat) (recipe : RecipeJson) (log : List String)
      (tot : ℚ), (normalizeRecipe recipe).isEmpty = false →
      ∃ r2 t2 l2,
        optimizeLoop ev adj target remaining i e a recipe log tot =
          ⟨.warn r2 t2 l2, e + remaining, a + remaining⟩ := by
  intro remaining
  induction remaining with
  | zero =>
    intro i e a recipe log tot _
    exact ⟨recipe, tot, log, by rw [optimizeLoop]; simp⟩
  | succ r ih =>
    intro i e a recipe log tot hne
    rw [optimizeLoop_adjust_step ev adj target r i e a recipe log tot hne
      (h1 i (normalizeRecipe recipe)) (h2 i (normalizeRecipe recipe))]
    obtain ⟨r2, t2, l2, hre⟩ := ih (i + 1) (e + 1) (a + 1)
      (applyAdjustment recipe
        (adj i recipe (ev i (normalizeRecipe recipe) - target) log))
      (log ++
        ((adj i recipe (ev i (normalizeRecipe recipe) - target) log).changes).getD [])
      (ev i (normalizeRecipe recipe))
      (h3 i recipe (ev i (normalizeRecipe recipe) - target) log)
    refine ⟨r2, t2, l2, ?_⟩
    rw [hre]
    have he : e + 1 + r = e + (r + 1) := by omega
    have ha : a + 1 + r = a + (r + 1) := by omega
    rw [he, ha]

/-- A raw ingredient line that survives normalization. -/
def goodRaw : RawIngredient :=
  { quantity := some 1, unit := some "g", name := some "rice" }

/-- A recipe whose extraction yields one usable ingredient line. -/
def goodRecipe : RecipeJson :=
  { title := some "t", ingredients := some [goodRaw] }

/-- A recipe whose ingredient list normalizes to zero usable lines. -/
def emptyRecipe : RecipeJson :=
  { title := some "e", ingredients := some [] }

/-- An evaluation oracle that always reports 1000 kcal. -/
def constEval1000 : Nat → List Ingredient → ℚ := fun _ _ => 1000

/-- An evaluation oracle that always reports 50 kcal. -/
def constEval50 : Nat → List Ingredient → ℚ := fun _ _ => 50

/-- An adjuster that changes nothing and reports an EMPTY change list. -/
def noopAdjust : Nat → RecipeJson → ℚ → List String → AdjustOut :=
  fun _ _ _ _ => ⟨none, none, some []⟩

/-- An adjuster that keeps a usable ingredient list and reports one
change description. -/
def goodAdjust : Nat → RecipeJson → ℚ → List String → AdjustOut :=
  fun _ _ _ _ => ⟨none, some [goodRaw], some ["halved the butter"]⟩

/-- An adjuster that returns an empty ingredient array (with a change
note), emptying the recipe. -/
def emptyingAdjust : Nat → RecipeJson → ℚ → List String → AdjustOut :=
  fun _ _ _ _ => ⟨none, some [], some ["removed everything"]⟩

/-- `goodRecipe` normalizes to a non-empty ingredient list. -/
lemma goodRecipe_nonempty : (normalizeRecipe goodRecipe).isEmpty = false := by
  have hname : ¬ (jsTrim "rice" = "") := by decide
  have hq : ¬ ((1 : ℚ) ≤ 0) := by norm_num
  simp [normalizeRecipe, goodRecipe, goodRaw, hname, hq]

/-- 1000 kcal is not within 5% tolerance of a 100 kcal target. -/
lemma not_within_1000_100 : ¬ withinTolerance 1000 100 := by
  unfold withinTolerance CALORIE_TOLERANCE
  rw [show (1000 : ℚ) - 100 = 900 by norm_num,
    abs_of_nonneg (by norm_num : (0 : ℚ) ≤ 900)]
  norm_num

/-- 1000 kcal is not below a 100 kcal target. -/
lemma not_below_1000_100 : ¬ ((1000 : ℚ) < 100) := by norm_num

/-- A concrete never-converging run with an adjuster that always reports
an empty change list: the loop returns `goodRecipe` unchanged with total
1000 and an empty log. -/
lemma noopAdjust_run : ∀ (r i e a : Nat) (tot : ℚ),
    optimizeLoop constEval1000 noopAdjust 100 r i e a goodRecipe [] tot =
      if r = 0 then ⟨.warn goodRecipe tot [], e, a⟩
      else ⟨.warn goodRecipe 1000 [], e + r, a + r⟩ := by
  intro r
  induction r with
  | zero => intro i e a tot; rw [optimizeLoop]; simp
  | succ r ih =>
    intro i e a tot
    rw [optimizeLoop_adjust_step constEval1000 noopAdjust 100 r i e a
      goodRecipe [] tot goodRecipe_nonempty not_within_1000_100
      not_below_1000_100]
    have h2 := ih (i + 1) (e + 1) (a + 1) 1000
    refine h2.trans ?_
    by_cases hr : r = 0
    · subst hr; simp
    · rw [if_neg hr, if_neg (by omega : ¬ r + 1 = 0)]
      have he : e + 1 + r = e + (r + 1) := by omega
      have ha : a + 1 + r = a + (r + 1) := by omega
      rw [he, ha]

/-- Counterexample to C5: a run in which no evaluation ever satisfies the
converged or below-target exits (every total is 1000 against target 100)
and every adjustment reports an empty change list terminates at
`MAX_ITERATIONS` with the warning set but an EMPTY change log. -/
theorem runOptimizer_exhaust_empty_log_cex :
    ¬ withinTolerance 1000 100 ∧ ¬ ((1000 : ℚ) < 100) ∧
    runOptimizer constEval1000 noopAdjust 100 goodRecipe =
      ⟨.warn goodRecipe 1000 [], MAX_ITERATIONS, MAX_ITERATIONS⟩ := by
  refine ⟨not_within_1000_100, not_below_1000_100, ?_⟩
  have h := noopAdjust_run MAX_ITERATIONS 0 0 0 0
  simpa [runOptimizer, MAX_ITERATIONS] using h

/-- C5 (amended): whenever no evaluation ever satisfies the converged or
below-target exit conditions and every adjusted recipe keeps a usable
ingredient list, the loop performs exactly `MAX_ITERATIONS` (8)
evaluation/adjustment iterations and then terminates with the warning
field set, returning the last attempted recipe, total, and accumulated
change log (which is empty when every adjustment reports no changes); it
never loops indefinitely. -/
theorem runOptimizer_exhausts_at_max (ev : Nat → List Ingredient → ℚ)
    (adj : Nat → RecipeJson → ℚ → List String → AdjustOut) (target : ℚ)
    (recipeJson : RecipeJson)
    (h1 : ∀ i ing, ¬ withinTolerance (ev i ing) target)
    (h2 : ∀ i ing, ¬ ev i ing < target)
    (h3 : ∀ i r d log,
      (normalizeRecipe (applyAdjustment r (adj i r d log))).isEmpty = false)
    (h0 : (normalizeRecipe recipeJson).isEmpty = false) :
    ∃ r2 t2 l2, runOptimizer ev adj target recipeJson =
      ⟨.warn r2 t2 l2, MAX_ITERATIONS, MAX_ITERATIONS⟩ := by
  obtain ⟨r2, t2, l2, h⟩ := optimizeLoop_exhausts ev adj target h1 h2 h3
    MAX_ITERATIONS 0 0 0 recipeJson [] 0 h0
  exact ⟨r2, t2, l2, by simpa [runOptimizer] using h⟩

/-- Witness for C5 (amended): constant-1000 evaluations against target
100 with an adjuster that always returns a usable list exhaust all 8
iterations and exit with the warning outcome. -/
theorem runOptimizer_exhausts_at_max_witness :
    ∃ r2 t2 l2, runOptimizer constEval1000 goodAdjust 100 goodRecipe =
      ⟨.warn r2 t2 l2, MAX_ITERATIONS, MAX_ITERATIONS⟩ :=
  runOptimizer_exhausts_at_max constEval1000 goodAdjust 100 goodRecipe
    (fun _ _ => not_within_1000_100)
    (fun _ _ => not_below_1000_100)
    (fun i r d log => by
      have hname : ¬ (jsTrim "rice" = "") := by decide
      have hq : ¬ ((1 : ℚ) ≤ 0) := by norm_num
      simp [goodAdjust, applyAdjustment, normalizeRecipe, goodRaw, hname, hq])
    goodRecipe_nonempty

/-- C6: whenever an iteration's evaluated total is strictly below the
target, the loop returns immediately as terminal success with the
current recipe, total, and change log — the adjustment capability is not
invoked (the adjust-call counter is unchanged and the result does not
depend on `adj`), even when the total is outside tolerance on the low
side. -/
theorem optimizeLoop_below_target (ev : Nat → List Ingredient → ℚ)
    (adj : Nat → RecipeJson → ℚ → List String → AdjustOut) (target : ℚ)
    (r i e a : Nat) (recipe : RecipeJson) (log : List String) (tot : ℚ)
    (hne : (normalizeRecipe recipe).isEmpty = false)
    (hlt : ev i (normalizeRecipe recipe) < target) :
    optimizeLoop ev adj target (r + 1) i e a recipe log tot =
      ⟨.ok recipe (ev i (normalizeRecipe recipe)) log, e + 1, a⟩ := by
  rw [optimizeLoop]
  simp only [hne, Bool.false_eq_true, if_false]
  by_cases hw : withinTolerance (ev i (normalizeRecipe recipe)) target
  · rw [if_pos hw]
  · rw [if_neg hw, if_pos hlt]

/-- Witness for C6: a first evaluation of 50 against target 100 (outside
tolerance on the low side) returns at once with zero adjustment calls. -/
theorem optimizeLoop_below_target_witness :
    optimizeLoop constEval50 noopAdjust 100 MAX_ITERATIONS 0 0 0
      goodRecipe [] 0 = ⟨.ok goodRecipe 50 [], 1, 0⟩ :=
  optimizeLoop_below_target constEval50 noopAdjust 100 7 0 0 0
    goodRecipe [] 0 goodRecipe_nonempty (by norm_num [constEval50])

/-- C9 (amended): a recipe whose extracted ingredient list normalizes to
zero usable lines aborts with the no-usable-ingredients error with zero
evaluation calls and zero adjustment calls — before any calorie
resolution or adjustment-capability network activity.  (The check is
re-entered each iteration, so the same failure can also occur later; see
the counterexample.) -/
theorem runOptimizer_noUsable_aborts (ev : Nat → List Ingredient → ℚ)
    (adj : Nat → RecipeJson → ℚ → List String → AdjustOut) (target : ℚ)
    (recipeJson : RecipeJson)
    (h0 : (normalizeRecipe recipeJson).isEmpty = true) :
    runOptimizer ev adj target recipeJson = ⟨.noUsableIngredients, 0, 0⟩ := by
  show optimizeLoop ev adj target (7 + 1) 0 0 0 recipeJson [] 0 = _
  exact optimizeLoop_empty_step ev adj target 7 0 0 0 recipeJson [] 0 h0

/-- Witness for C9 (amended): a recipe with an empty ingredient array
aborts immediately with no oracle calls. -/
theorem runOptimizer_noUsable_aborts_witness :
    runOptimizer constEval1000 noopAdjust 100 emptyRecipe =
      ⟨.noUsableIngredients, 0, 0⟩ :=
  runOptimizer_noUsable_aborts constEval1000 noopAdjust 100 emptyRecipe rfl

/-- Counterexample to C9's last clause: starting from a recipe that
normalizes fine, an adjuster that returns an empty ingredient array
makes the run abort with the no-usable-ingredients error at iteration 1
— AFTER one calorie evaluation and one adjustment-capability call, not
at the initial extraction. -/
theorem noUsableIngredients_after_network_cex :
    (normalizeRecipe goodRecipe).isEmpty = false ∧
    runOptimizer constEval1000 emptyingAdjust 100 goodRecipe =
      ⟨.noUsableIngredients, 1, 1⟩ := by
  refine ⟨goodRecipe_nonempty, ?_⟩
  show optimizeLoop constEval1000 emptyingAdjust 100 (7 + 1) 0 0 0
    goodRecipe [] 0 = _
  rw [optimizeLoop_adjust_step constEval1000 emptyingAdjust 100 7 0 0 0
    goodRecipe [] 0 goodRecipe_nonempty not_within_1000_100
    not_below_1000_100]
  show optimizeLoop constEval1000 emptyingAdjust 100 (6 + 1) 1 1 1 _ _ _ = _
  exact optimizeLoop_empty_step constEval1000 emptyingAdjust 100 6 1 1 1
    _ _ _ rfl

end Calories
